import Mathlib

/-!
Verification of the multi-provider legal-event extraction core
(`src/core/table_formatter.py`, `src/core/extractor_factory.py`,
`src/core/config.py`, `src/core/docling_adapter.py`,
`src/core/document_processor.py`) via a shallow embedding in Lean.

Pandas DataFrames are embedded as a list of column names plus a list of
rows of cells; a cell is an integer, a string, or the missing value NaN
(`Cell.null`).  Python exceptions are made explicit (`Except`), and code
that the source catches is modelled by the corresponding branch.
-/

namespace LegalEvents

/-- A pandas cell: an int64 value, a string (object) value, or NaN. -/
inductive Cell where
  | int (n : Int)
  | str (s : String)
  | null
deriving DecidableEq

def Cell.isInt : Cell → Bool
  | .int _ => true
  | _ => false

def Cell.isStr : Cell → Bool
  | .str _ => true
  | _ => false

/-- `pd.isnull` on one cell. -/
def Cell.isNull : Cell → Bool
  | .null => true
  | _ => false

/-- A pandas DataFrame: ordered column names and rows of cells. -/
structure DataFrame where
  cols : List String
  rows : List (List Cell)
deriving DecidableEq

/-- `FIVE_COLUMN_HEADERS` from `src/core/constants.py`. -/
def FIVE_COLUMN_HEADERS : List String :=
  ["No", "Date", "Event Particulars", "Citation", "Document Reference"]

/-- `INTERNAL_FIELDS` from `src/core/constants.py`. -/
def INTERNAL_FIELDS : List String :=
  ["number", "date", "event_particulars", "citation", "document_reference"]

/-- `DEFAULT_NO_DATE` from `src/core/constants.py`. -/
def DEFAULT_NO_DATE : String := "Date not available"

/-- `DEFAULT_NO_CITATION` from `src/core/constants.py`. -/
def DEFAULT_NO_CITATION : String := "No citation available"

/-- Python `str.lower()`: lowercase every character. -/
def pyLower (s : String) : String := String.mk (s.data.map Char.toLower)

/-- Python `str.strip()`: drop leading and trailing whitespace. -/
def pyStrip (s : String) : String :=
  String.mk (((s.data.dropWhile Char.isWhitespace).reverse.dropWhile
    Char.isWhitespace).reverse)

/-- Python string comparison (`<` by code points), used by `sorted`. -/
def charListLt : List Char → List Char → Bool
  | [], [] => false
  | [], _ :: _ => true
  | _ :: _, [] => false
  | a :: as, b :: bs =>
    if a.toNat < b.toNat then true
    else if b.toNat < a.toNat then false
    else charListLt as bs

/-- A Python dict record (`Dict[str, Any]`): association list of cells. -/
abbrev PyRecord : Type := List (String × Cell)

/-- Dict lookup (first binding wins, as Python dict keys are unique). -/
def lookupKey : List (String × Cell) → String → Option Cell
  | [], _ => none
  | (k, v) :: rest, name => if k = name then some v else lookupKey rest name

/-- Index of a column name in a header list (length if absent). -/
def colIndex : List String → String → Nat
  | [], _ => 0
  | c :: rest, name => if c = name then 0 else colIndex rest name + 1

/-- The cell of row `r` in the column called `name` (NaN when out of range). -/
def cellAt (cols : List String) (r : List Cell) (name : String) : Cell :=
  (r[colIndex cols name]?).getD Cell.null

/-- `df[name]`: the column called `name`, as a list of cells. -/
def DataFrame.getCol (df : DataFrame) (name : String) : List Cell :=
  df.rows.map (fun r => cellAt df.cols r name)

/-- Column names of `pd.DataFrame(records)`: union of the record keys in
order of first appearance. -/
def pdColumns (records : List PyRecord) : List String :=
  records.foldl
    (fun acc r => r.foldl (fun a kv => if kv.1 ∈ a then a else a ++ [kv.1]) acc)
    []

/-- `pd.DataFrame(records)`: missing keys become NaN. -/
def pdDataFrame (records : List PyRecord) : DataFrame :=
  let cols := pdColumns records
  DataFrame.mk cols
    (records.map (fun r => cols.map (fun k => (lookupKey r k).getD Cell.null)))

/-- `df[name] = vals` for a fresh column (appended after existing ones). -/
def addColumn (df : DataFrame) (name : String) (vals : List Cell) : DataFrame :=
  DataFrame.mk (df.cols ++ [name])
    (List.zipWith (fun r v => r ++ [v]) df.rows vals)

/-- Default values the normalization loop inserts for a missing internal
field (`table_formatter.py` lines 44-53). -/
def defaultColumn (field : String) (n : Nat) : List Cell :=
  if field = "number" then (List.range n).map (fun i => Cell.int (Int.ofNat (i + 1)))
  else if field = "date" then List.replicate n (Cell.str DEFAULT_NO_DATE)
  else if field = "event_particulars" then
    List.replicate n (Cell.str "Event details not available")
  else if field = "citation" then
    List.replicate n (Cell.str "No citation available")
  else List.replicate n (Cell.str "Unknown document")

/-- The loop `for field in INTERNAL_FIELDS: if field not in df.columns: ...`
(`table_formatter.py` lines 41-53). -/
def ensureFields (df : DataFrame) : DataFrame :=
  INTERNAL_FIELDS.foldl
    (fun d f => if f ∈ d.cols then d else addColumn d f (defaultColumn f d.rows.length))
    df

/-- Timing columns preserved by normalization (`table_formatter.py` line 56). -/
def timingColumns : List String := ["docling_seconds", "extractor_seconds", "total_seconds"]

/-- `col.replace("_", " ").title().replace(" ", "_")` on a timing column name. -/
def displayTimingName (s : String) : String :=
  if s = "docling_seconds" then "Docling_Seconds"
  else if s = "extractor_seconds" then "Extractor_Seconds"
  else "Total_Seconds"

/-- `df[INTERNAL_FIELDS]` followed by renaming to `FIVE_COLUMN_HEADERS`
(`table_formatter.py` lines 63-66). -/
def selectRename (df : DataFrame) : DataFrame :=
  DataFrame.mk FIVE_COLUMN_HEADERS
    (df.rows.map (fun r => INTERNAL_FIELDS.map (fun n => cellAt df.cols r n)))

/-- Re-adding the preserved timing columns after the five core columns
(`table_formatter.py` lines 69-72). -/
def appendTiming (core : DataFrame) (df : DataFrame) : DataFrame :=
  timingColumns.foldl
    (fun d c => if c ∈ df.cols then addColumn d (displayTimingName c) (df.getCol c) else d)
    core

/-- pandas comparison used by `sort_values` on the `No` column: ints compare
numerically, strings lexicographically, NaN sorts last.  Comparing an int
with a string raises `TypeError` in pandas; that case is guarded separately
by `mixedNoTypes` and never reaches the sort. -/
def cellLe : Cell → Cell → Bool
  | .int a, .int b => a ≤ b
  | .str a, .str b => a ≤ b
  | .null, _ => false
  | _, .null => true
  | _, _ => true

/-- Sort key of a row for `sort_values(FIVE_COLUMN_HEADERS[0])`: the first
cell, since `No` is the first column of the normalized frame. -/
def rowKey (r : List Cell) : Cell := (r[0]?).getD Cell.null

def insertRow (r : List Cell) : List (List Cell) → List (List Cell)
  | [] => [r]
  | s :: rest => if cellLe (rowKey r) (rowKey s) then r :: s :: rest else s :: insertRow r rest

/-- `df.sort_values(FIVE_COLUMN_HEADERS[0])` on the rows. -/
def sortRows (rs : List (List Cell)) : List (List Cell) :=
  rs.foldr insertRow []

def insertCell (c : Cell) : List Cell → List Cell
  | [] => [c]
  | d :: rest => if cellLe c d then c :: d :: rest else d :: insertCell c rest

/-- Sorting a list of cells (the image of `sortRows` on the key column). -/
def sortCells (cs : List Cell) : List Cell :=
  cs.foldr insertCell []

/-- `sort_values` raises `TypeError` exactly when the key column mixes ints
and strings; NaNs are placed last without comparison. -/
def mixedNoTypes (df : DataFrame) : Bool :=
  (df.getCol "No").any Cell.isInt && (df.getCol "No").any Cell.isStr

/-- `TableFormatter.validate_dataframe_format` (`table_formatter.py`
lines 89-130): nonempty, at least the five headers in order at the front,
no required column entirely null, and the `No` column of integer dtype
(`dtype.kind in 'iu'` holds iff every cell of the column is an int). -/
def validate_dataframe_format (df : DataFrame) : Bool :=
  if df.rows.isEmpty then false
  else if df.cols.length < FIVE_COLUMN_HEADERS.length then false
  else if ¬ (df.cols.take 5 = FIVE_COLUMN_HEADERS) then false
  else if FIVE_COLUMN_HEADERS.any (fun h => (df.getCol h).all Cell.isNull) then false
  else (df.getCol "No").all Cell.isInt

/-- `TableFormatter.create_fallback_dataframe` (`table_formatter.py`
lines 132-154). -/
def create_fallback_dataframe (reason : String) : DataFrame :=
  DataFrame.mk FIVE_COLUMN_HEADERS
    [[Cell.int 1, Cell.str DEFAULT_NO_DATE,
      Cell.str ("Processing failed: " ++ reason),
      Cell.str "No citation available (processing failed)",
      Cell.str "Unknown document"]]

/-- The body of `normalize_records_to_dataframe` for nonempty input, up to
and including the sort: build the frame, fill missing internal fields,
select/rename the five core columns, re-append timing columns, sort by
`No` (`table_formatter.py` lines 38-75). -/
def normalizeCore (records : List PyRecord) : DataFrame :=
  let df := ensureFields (pdDataFrame records)
  let core := appendTiming (selectRename df) df
  DataFrame.mk core.cols (sortRows core.rows)

/-- `TableFormatter.normalize_records_to_dataframe` (`table_formatter.py`
lines 22-87).  For empty input the source returns
`pd.DataFrame(columns=FIVE_COLUMN_HEADERS)`, an empty frame.  The
`except` branch fires exactly when `sort_values` raises a `TypeError`
(mixed int/string source numbers); validation failure after
normalization yields the fallback frame. -/
def normalize_records_to_dataframe (records : List PyRecord) : DataFrame :=
  if records.isEmpty then DataFrame.mk FIVE_COLUMN_HEADERS []
  else
    let sorted := normalizeCore records
    if mixedNoTypes sorted then
      create_fallback_dataframe "Normalization error: TypeError comparing int and str"
    else if validate_dataframe_format sorted then sorted
    else create_fallback_dataframe "DataFrame validation failed"

/-! ### CSV serialization (`prepare_for_export`, `df.to_csv(index=False)`)

`to_csv` writes the header row then one line per data row, separated by a
line feed, with minimal quoting: a field is quoted iff it contains the
delimiter, the quote character, or a line break, and quote characters are
doubled inside quoted fields.  Int cells print in decimal and NaN prints
as the empty field.  The re-parser below reads that textual format back
into fields, so the round-trip claim can be stated and proved. -/

def quoteChar : Char := Char.ofNat 34

def lfChar : Char := Char.ofNat 10

def crChar : Char := Char.ofNat 13

/-- Characters forcing a field to be quoted under minimal quoting. -/
def isSpecialChar (c : Char) : Bool :=
  c = ',' || c = quoteChar || c = lfChar || c = crChar

/-- Double every quote character (CSV escaping inside a quoted field). -/
def dupQuotes : List Char → List Char
  | [] => []
  | c :: rest =>
    if c = quoteChar then quoteChar :: quoteChar :: dupQuotes rest
    else c :: dupQuotes rest

/-- Render one field, quoting it only when needed. -/
def escapeField (f : List Char) : List Char :=
  if f.any isSpecialChar then quoteChar :: (dupQuotes f ++ [quoteChar]) else f

/-- Render one row: fields joined by commas. -/
def renderRow : List (List Char) → List Char
  | [] => []
  | f :: fs =>
    match fs with
    | [] => escapeField f
    | _ :: _ => escapeField f ++ ',' :: renderRow fs

/-- Render a table: each row followed by a line feed. -/
def renderCsv : List (List (List Char)) → List Char
  | [] => []
  | r :: rs => renderRow r ++ lfChar :: renderCsv rs

/-- Read the body of a quoted field (opening quote already consumed):
doubled quotes decode to one quote, a lone quote closes the field. -/
def parseQuoted : List Char → Option (List Char × List Char)
  | [] => none
  | [c] => if c = quoteChar then some ([], []) else none
  | c :: c2 :: rest =>
    if c = quoteChar then
      if c2 = quoteChar then
        (parseQuoted rest).map (fun p => (quoteChar :: p.1, p.2))
      else some ([], c2 :: rest)
    else (parseQuoted (c2 :: rest)).map (fun p => (c :: p.1, p.2))

/-- An unquoted field extends up to the next comma or line feed. -/
def notFieldEnd (c : Char) : Bool := ¬ (c = ',' || c = lfChar)

/-- Read one field (quoted or not). -/
def parseField (cs : List Char) : Option (List Char × List Char) :=
  match cs with
  | [] => some ([], [])
  | c :: rest =>
    if c = quoteChar then parseQuoted rest
    else some (cs.takeWhile notFieldEnd, cs.dropWhile notFieldEnd)

/-- Read one row: comma-separated fields up to a line feed or the end of
input.  `fuel` bounds the number of fields. -/
def parseRowAux : Nat → List Char → Option (List (List Char) × List Char)
  | 0, _ => none
  | fuel + 1, cs =>
    match parseField cs with
    | none => none
    | some (f, rest) =>
      match rest with
      | [] => some ([f], [])
      | c :: rest2 =>
        if c = ',' then (parseRowAux fuel rest2).map (fun p => (f :: p.1, p.2))
        else if c = lfChar then some ([f], rest2)
        else none

/-- Read all rows.  `fuel` bounds the total work. -/
def parseCsvAux : Nat → List Char → Option (List (List (List Char)))
  | _, [] => some []
  | 0, _ :: _ => none
  | fuel + 1, c :: cs =>
    match parseRowAux (fuel + 1) (c :: cs) with
    | none => none
    | some (r, rest) => (parseCsvAux fuel rest).map (fun rs => r :: rs)

/-- Re-parse CSV text into rows of fields. -/
def parseCsvString (s : String) : Option (List (List (List Char))) :=
  parseCsvAux s.data.length s.data

/-- How a cell prints in CSV: ints in decimal, NaN as the empty field. -/
def cellRender : Cell → List Char
  | .int n => (toString n).data
  | .str s => s.data
  | .null => []

/-- The grid of fields `df.to_csv(index=False)` writes: the header row
followed by the rendered data rows. -/
def csvTable (df : DataFrame) : List (List (List Char)) :=
  df.cols.map String.data :: df.rows.map (fun r => r.map cellRender)

/-- `df.to_csv(index=False)` as a string. -/
def to_csv (df : DataFrame) : String :=
  String.mk (renderCsv (csvTable df))

/-- The bytes `prepare_for_export` returns: an xlsx workbook of a frame
(serialized by `df.to_excel`, kept abstract), CSV text, or JSON text of a
frame (serialized by `df.to_json`, kept abstract). -/
inductive ExportBytes where
  | xlsx (df : DataFrame)
  | csv (s : String)
  | json (df : DataFrame)
deriving DecidableEq

/-- `TableFormatter.prepare_for_export` (`table_formatter.py` lines
157-192): re-validate and substitute the fallback frame, then dispatch on
the lowercased format; an unsupported format raises `ValueError`, which
the `except` arm converts to the fallback frame serialized as CSV. -/
def prepare_for_export (df : DataFrame) (format_type : String) : ExportBytes :=
  let df2 := if validate_dataframe_format df then df
             else create_fallback_dataframe "Invalid format for export"
  if pyLower format_type = "xlsx" then ExportBytes.xlsx df2
  else if pyLower format_type = "csv" then ExportBytes.csv (to_csv df2)
  else if pyLower format_type = "json" then ExportBytes.json df2
  else
    ExportBytes.csv (to_csv (create_fallback_dataframe
      ("Export error: Unsupported export format: " ++ format_type)))

/-! ### Extractor factory and provider configuration
(`src/core/extractor_factory.py`, `src/core/config.py`) -/

/-- `ExtractorConfig` from `src/core/config.py`. -/
structure ExtractorConfig where
  doc_extractor : String
  event_extractor : String
deriving DecidableEq

/-- The provider-specific event configuration dataclass selected by
`load_provider_config`; field contents are environment-loaded and not
needed by any claim, so each dataclass is one tag. -/
inductive EventConfig where
  | langExtractConfig
  | openRouterConfig
  | openCodeZenConfig
  | openAIConfig
  | anthropicConfig
deriving DecidableEq

/-- `EVENT_PROVIDER_REGISTRY` (`extractor_factory.py` lines 74-80): keys
mapped to the adapter class each factory function instantiates. -/
def EVENT_PROVIDER_REGISTRY : List (String × String) :=
  [("langextract", "LangExtractEventExtractor"),
   ("openrouter", "OpenRouterEventExtractor"),
   ("opencode_zen", "OpenCodeZenEventExtractor"),
   ("openai", "OpenAIEventExtractor"),
   ("anthropic", "AnthropicEventExtractor")]

/-- `dict.get` on the registry. -/
def registryLookup : List (String × String) → String → Option String
  | [], _ => none
  | (k, v) :: rest, name => if k = name then some v else registryLookup rest name

/-- Ascending insertion of a string (Python `sorted`). -/
def insertStr (a : String) : List String → List String
  | [] => [a]
  | b :: rest =>
    if charListLt b.data a.data then b :: insertStr a rest
    else a :: b :: rest

/-- Python `sorted` on strings. -/
def sortStrs (l : List String) : List String :=
  l.foldr insertStr []

/-- `", ".join(sorted(EVENT_PROVIDER_REGISTRY))` from the unknown-key
error branch (`extractor_factory.py` line 119). -/
def availableProviders : String :=
  String.intercalate ", " (sortStrs (EVENT_PROVIDER_REGISTRY.map Prod.fst))

/-- Errors `build_extractors` can raise: `ValueError` for the document
slot, `ExtractorConfigurationError` for the event slot. -/
inductive BuildError where
  | valueError (msg : String)
  | configurationError (msg : String)
deriving DecidableEq

/-- The pair `build_extractors` returns, as the concrete class names it
instantiates plus the event configuration handed to the factory. -/
structure BuiltExtractors where
  doc_extractor_class : String
  event_extractor_class : String
  event_config : EventConfig
deriving DecidableEq

/-- `build_extractors` (`extractor_factory.py` lines 83-127): lowercase
both keys, require the `docling` document extractor, look the event key
up in the registry, and fail with a configuration error naming the key
and the registered providers when the lookup misses. -/
def build_extractors (event_config : EventConfig) (cfg : ExtractorConfig) :
    Except BuildError BuiltExtractors :=
  let doc_type := pyLower cfg.doc_extractor
  let event_type := pyLower cfg.event_extractor
  if doc_type = "docling" then
    match registryLookup EVENT_PROVIDER_REGISTRY event_type with
    | some cls => Except.ok (BuiltExtractors.mk "DoclingDocumentExtractor" cls event_config)
    | none =>
      Except.error (BuildError.configurationError
        ("Unsupported event extractor type: " ++ event_type ++
         ". Available providers: " ++ availableProviders))
  else Except.error (BuildError.valueError ("Unsupported document extractor type: " ++ doc_type))

/-- Python `a or b` on strings (empty is falsy). -/
def pyOrStr (a b : String) : String := if a = "" then b else a

/-- `load_provider_config` (`config.py` lines 160-193): normalize the
provider key by `strip().lower()` over the `or`-chain, store it into the
extractor config, pick the matching dataclass, and send every other key
to `LangExtractConfig`, rewriting the stored key to `"langextract"`. -/
def load_provider_config (provider : String) (extractor_config : ExtractorConfig) :
    EventConfig × ExtractorConfig :=
  let provider_key :=
    pyLower (pyStrip (pyOrStr provider (pyOrStr extractor_config.event_extractor "langextract")))
  let ec1 := ExtractorConfig.mk extractor_config.doc_extractor provider_key
  if provider_key = "openrouter" then (EventConfig.openRouterConfig, ec1)
  else if provider_key = "opencode_zen" then (EventConfig.openCodeZenConfig, ec1)
  else if provider_key = "openai" then (EventConfig.openAIConfig, ec1)
  else if provider_key = "anthropic" then (EventConfig.anthropicConfig, ec1)
  else (EventConfig.langExtractConfig,
        ExtractorConfig.mk extractor_config.doc_extractor "langextract")

/-- `create_default_extractors` (`extractor_factory.py` lines 130-152):
apply the truthy override to the base config, run `load_provider_config`
on the resulting event key, then `build_extractors`. -/
def create_default_extractors (base : ExtractorConfig) (override : Option String) :
    Except BuildError BuiltExtractors :=
  let cfg0 := match override with
    | some s => if s = "" then base else ExtractorConfig.mk base.doc_extractor s
    | none => base
  let loaded := load_provider_config cfg0.event_extractor cfg0
  build_extractors loaded.1 loaded.2

/-! ### Document extraction (`src/core/document_processor.py`,
`src/core/docling_adapter.py`)

The external parsing library is consumed only through narrow calls
(`converter.convert`, `extract_msg`, reading an `.eml` file); each such
call is a parameter of type `Except String _`, with `Except.error`
standing for a raised exception. -/

/-- File types routed to the Docling converter
(`document_processor.py` line 192). -/
def doclingFileTypes : List String := ["pdf", "docx", "txt", "pptx", "html"]

/-- `DocumentProcessor.extract_text` (`document_processor.py` lines
177-214): Docling formats go through the converter, `msg`/`eml` go
through the email readers, anything else falls through with the initial
`("", "failed")`; every exception is caught and becomes `("", "failed")`,
and successful text is stripped. -/
def extract_text (file_type : String) (convert : Except String String)
    (emailRead : Except String String) : String × String :=
  if file_type ∈ doclingFileTypes then
    match convert with
    | Except.ok md => (pyStrip md, "docling")
    | Except.error _ => ("", "failed")
  else if file_type = "msg" then
    match emailRead with
    | Except.ok s => (pyStrip s, "extract_msg")
    | Except.error _ => ("", "failed")
  else if file_type = "eml" then
    match emailRead with
    | Except.ok s => (pyStrip s, "raw_text")
    | Except.error _ => ("", "failed")
  else ("", "failed")

/-- The configuration echo embedded in extraction metadata
(`docling_adapter.py` lines 57-61). -/
structure DoclingConfigEcho where
  do_ocr : Bool
  table_mode : String
  backend : String
deriving DecidableEq

/-- Metadata of an `ExtractedDocument` (`docling_adapter.py`): the
exception branch carries an `error` entry instead of the config echo. -/
structure DocMetadata where
  file_path : String
  file_type : String
  extraction_method : String
  config : Option DoclingConfigEcho
  error : Option String
deriving DecidableEq

/-- `ExtractedDocument` from `src/core/interfaces.py` as used by the
adapter: markdown, plain text, metadata. -/
structure ExtractedDocument where
  markdown : String
  plain_text : String
  metadata : DocMetadata
deriving DecidableEq

/-- `DoclingDocumentExtractor.extract` (`docling_adapter.py` lines
31-103).  `pass1` is the `(text, extraction_method)` pair returned by
`processor.extract_text`; `rerun` is the second `converter.convert` call
that produces both markdown and plain text for Docling extractions, and
its `Except.error` case is the raised exception the outer `except`
converts into an empty failed document.  The function is total: no
branch propagates an exception. -/
def docling_adapter_extract (cfg : DoclingConfigEcho) (file_path file_type : String)
    (pass1 : String × String) (rerun : Except String (String × String)) :
    ExtractedDocument :=
  if pass1.2 = "failed" || pyStrip pass1.1 = "" then
    ExtractedDocument.mk "" ""
      (DocMetadata.mk file_path file_type "failed" (some cfg) none)
  else if pass1.2 = "docling" then
    match rerun with
    | Except.ok md_pt =>
      ExtractedDocument.mk md_pt.1 md_pt.2
        (DocMetadata.mk file_path file_type pass1.2 (some cfg) none)
    | Except.error e =>
      ExtractedDocument.mk "" ""
        (DocMetadata.mk file_path file_type "failed" none (some e))
  else
    ExtractedDocument.mk pass1.1 pass1.1
      (DocMetadata.mk file_path file_type pass1.2 (some cfg) none)

/-- Modelled from the spec: the OCR auto-detection knobs of the document
extractor configuration (`do_ocr`, `auto_ocr_detection` and the
minimal-length trigger threshold).  The implementation of OCR
auto-detection is not among the provided source files — `DoclingConfig`
in `src/core/config.py` lacks the `auto_ocr_detection` field that
`scripts/test_ocr_autodetect.py` exercises — so it is modelled from spec
§4.3. -/
structure OcrAutoConfig where
  do_ocr : Bool
  auto_ocr_detection : Bool
  min_text_threshold : Nat

/-- Modelled from the spec: the OCR decision logic of spec §4.3 — "when
auto-detection is enabled and a fast pass (OCR disabled) yields text
below a minimal-length threshold, re-run the same file with OCR enabled
and use that result instead".  `runPass` runs one extraction pass over
the same file with OCR forced on or off. -/
def extract_with_ocr_autodetect (cfg : OcrAutoConfig)
    (runPass : Bool → ExtractedDocument) : ExtractedDocument :=
  let first := runPass cfg.do_ocr
  if cfg.auto_ocr_detection && !cfg.do_ocr &&
      decide (first.plain_text.length < cfg.min_text_threshold) then
    runPass true
  else first

/-! ### Event extractor adapter retry policy

The per-provider adapter sources (`openai_adapter.py` and friends) are
not among the provided files — only their unit tests are — so the shared
adapter contract is modelled from spec §4.2 and the behavior asserted by
`tests/test_openai_adapter.py`. -/

/-- Modelled from the spec: one event item of a provider response. -/
structure RawEvent where
  event_particulars : String
  citation : String
  document_reference : String
  date : String
deriving DecidableEq

/-- Modelled from the spec: an `EventRecord` (`interfaces.py` is not
among the provided files); the open attribute map is flattened to the
`fallback` flag and `reason` the tests inspect. -/
structure EventRecord where
  number : Int
  date : String
  event_particulars : String
  citation : String
  document_reference : String
  fallback : Bool
  reason : String
deriving DecidableEq

/-- Transport failures: transient errors (rate limit, timeout, 5xx) are
retried, permanent errors (auth, malformed request) are not. -/
inductive TransportError where
  | transient (msg : String)
  | permanent (msg : String)
deriving DecidableEq

/-- Retry bound of spec §4.2: 3 retries, hence 4 attempts total
(`test_extract_events_max_retries_exceeded` asserts `call_count == 4`). -/
def MAX_RETRIES : Nat := 3

/-- Modelled from the spec: the bounded retry loop.  `transport n` is the
outcome of the `n`-th call (0-based).  Returns the final outcome plus
the number of transport invocations made. -/
def runWithRetry (transport : Nat → Except TransportError (List RawEvent)) :
    Nat → Nat → Except String (List RawEvent) × Nat
  | attempt, retriesLeft =>
    match transport attempt with
    | Except.ok r => (Except.ok r, attempt + 1)
    | Except.error (TransportError.permanent m) => (Except.error m, attempt + 1)
    | Except.error (TransportError.transient m) =>
      match retriesLeft with
      | 0 => (Except.error m, attempt + 1)
      | rl + 1 => runWithRetry transport (attempt + 1) rl

/-- `os.path.basename` on a POSIX path. -/
def basename (p : String) : String :=
  (p.splitOn "/").getLastD p

/-- Modelled from the spec: document reference resolution, `document_name`
over basename of `file_path` over `"Unknown document"` (spec §4.2,
`test_extract_events_document_name_extraction`). -/
def resolveDocName (document_name file_path : Option String) : String :=
  match document_name with
  | some d => d
  | none =>
    match file_path with
    | some p => basename p
    | none => "Unknown document"

/-- Modelled from the spec: the one synthetic record every fallback path
returns (`test_fallback_record_creation`: number 1, sentinel date and
citation, reason embedded in the particulars and in the attributes). -/
def fallbackRecord (docName reason : String) : EventRecord :=
  EventRecord.mk 1 DEFAULT_NO_DATE ("Extraction failed: " ++ reason)
    DEFAULT_NO_CITATION docName true reason

/-- Modelled from the spec: assemble records from parsed response items —
drop items without a non-empty `event_particulars`, number the survivors
1-based in response order, substitute the citation/date sentinels, stamp
the resolved document reference (spec §4.2). -/
def numberEvents (docName : String) : Int → List RawEvent → List EventRecord
  | _, [] => []
  | i, e :: rest =>
    if e.event_particulars = "" then numberEvents docName i rest
    else
      EventRecord.mk i (pyOrStr e.date DEFAULT_NO_DATE) e.event_particulars
        (pyOrStr e.citation DEFAULT_NO_CITATION) docName false ""
        :: numberEvents docName (i + 1) rest

/-- Modelled from the spec: `extract_events` of the shared adapter
contract (spec §4.2 state machine).  Empty text and unavailability
short-circuit with one fallback record and zero transport calls; an
exhausted retry loop or a parse yielding zero valid events also yields
exactly one fallback record; the function is total — no error escapes as
an exception.  Returns the records plus the transport call count. -/
def extract_events (provider : String) (available : Bool) (text : String)
    (document_name file_path : Option String)
    (transport : Nat → Except TransportError (List RawEvent)) :
    List EventRecord × Nat :=
  let docName := resolveDocName document_name file_path
  if pyStrip text = "" then
    ([fallbackRecord docName "No text content provided"], 0)
  else if !available then
    ([fallbackRecord docName (provider ++ " not available")], 0)
  else
    match runWithRetry transport 0 MAX_RETRIES with
    | (Except.ok raw, calls) =>
      let records := numberEvents docName 1 raw
      if records.isEmpty then
        ([fallbackRecord docName "No valid events extracted"], calls)
      else (records, calls)
    | (Except.error m, calls) => ([fallbackRecord docName m], calls)

/-! ### Concrete data used by counterexamples and witnesses -/

/-- A well-formed input record whose source number is 5. -/
def recNumber5 : PyRecord :=
  [("number", Cell.int 5), ("date", Cell.str "2024-01-02"),
   ("event_particulars", Cell.str "Second event"),
   ("citation", Cell.str "Cite B"), ("document_reference", Cell.str "doc.pdf")]

/-- A well-formed input record whose source number is 2. -/
def recNumber2 : PyRecord :=
  [("number", Cell.int 2), ("date", Cell.str "2024-01-01"),
   ("event_particulars", Cell.str "First event"),
   ("citation", Cell.str "Cite A"), ("document_reference", Cell.str "doc.pdf")]

/-- A two-row frame in canonical shape whose `No` column is `[1, 3]`:
integer-typed but not contiguous. -/
def dfNonContiguous : DataFrame :=
  DataFrame.mk FIVE_COLUMN_HEADERS
    [[Cell.int 1, Cell.str "2024-01-01", Cell.str "Event one",
      Cell.str "Cite", Cell.str "doc.pdf"],
     [Cell.int 3, Cell.str "2024-01-03", Cell.str "Event two",
      Cell.str "Cite", Cell.str "doc.pdf"]]

/-- A valid one-row frame whose particulars cell contains a comma and a
line break, exercising CSV quoting. -/
def dfCsvExample : DataFrame :=
  DataFrame.mk FIVE_COLUMN_HEADERS
    [[Cell.int 1, Cell.str "2024-01-15",
      Cell.str "Motion filed, then\nheard", Cell.str DEFAULT_NO_CITATION,
      Cell.str "doc.pdf"]]

/-- A frame with no columns and no rows; fails validation. -/
def dfInvalid : DataFrame := DataFrame.mk [] []

/-- Result of a fast extraction pass yielding very little text. -/
def docFastPass : ExtractedDocument :=
  ExtractedDocument.mk "x" "x" (DocMetadata.mk "scan.pdf" "pdf" "docling"
    (some (DoclingConfigEcho.mk false "FAST" "default")) none)

/-- Result of a second pass over the same file with OCR forced on. -/
def docOcrPass : ExtractedDocument :=
  ExtractedDocument.mk "Recovered scanned text" "Recovered scanned text"
    (DocMetadata.mk "scan.pdf" "pdf" "docling"
      (some (DoclingConfigEcho.mk true "FAST" "default")) none)

/-- A two-outcome pass runner: OCR off gives the short fast-pass result,
OCR on gives the recovered result. -/
def ocrPassRunner : Bool → ExtractedDocument :=
  fun b => if b then docOcrPass else docFastPass

/-! ## Theorems -/

/-- The fallback frame always passes validation, whatever the reason. -/
theorem validate_create_fallback (reason : String) :
    validate_dataframe_format (create_fallback_dataframe reason) = true := rfl

/-- Claim C1, counterexample: on the empty record list,
`normalize_records_to_dataframe` does not return a validating one-row
fallback table — it returns a zero-row frame that fails validation. -/
theorem c1_empty_counterexample :
    validate_dataframe_format (normalize_records_to_dataframe []) = false ∧
    (normalize_records_to_dataframe []).rows.length ≠ 1 := by
  decide

/-- Claim C1, amended: for an empty input record list,
`normalize_records_to_dataframe` returns the empty frame
`pd.DataFrame(columns=FIVE_COLUMN_HEADERS)` — the five canonical headers
with zero rows — which fails `validate_dataframe_format`; the one-row
fallback frame is not produced on this path. -/
theorem c1_empty_returns_empty_frame :
    normalize_records_to_dataframe [] = DataFrame.mk FIVE_COLUMN_HEADERS [] ∧
    validate_dataframe_format (DataFrame.mk FIVE_COLUMN_HEADERS []) = false :=
  ⟨rfl, rfl⟩

/-- Claim C5, counterexample: a frame whose `No` column is `[1, 3]` —
integer-typed but not contiguous — passes `validate_dataframe_format`,
so validation does not reject non-contiguous `No` columns. -/
theorem c5_noncontiguous_passes :
    validate_dataframe_format dfNonContiguous = true ∧
    dfNonContiguous.getCol "No" = [Cell.int 1, Cell.int 3] ∧
    [Cell.int 1, Cell.int 3] ≠ [Cell.int 1, Cell.int 2] := by
  decide

/-- Claim C5, amended: `validate_dataframe_format` returns true only if
the first five column names equal the canonical headers in order, the
frame is nonempty, no required column is entirely null, and every cell of
the `No` column is an integer; contiguity of `No` is not checked. -/
theorem c5_validate_necessary_conditions (df : DataFrame)
    (h : validate_dataframe_format df = true) :
    df.cols.take 5 = FIVE_COLUMN_HEADERS ∧
    df.rows ≠ [] ∧
    (∀ hd ∈ FIVE_COLUMN_HEADERS, (df.getCol hd).all Cell.isNull = false) ∧
    (df.getCol "No").all Cell.isInt = true := by
  simp only [validate_dataframe_format] at h
  split at h
  · exact absurd h (by simp)
  split at h
  · exact absurd h (by simp)
  split at h
  · exact absurd h (by simp)
  split at h
  · exact absurd h (by simp)
  rename_i hne hlen htake hnull
  refine ⟨by simpa using htake, ?_, ?_, h⟩
  · simpa [List.isEmpty_iff] using hne
  · intro hd hmem
    by_contra hc
    exact hnull (List.any_eq_true.mpr ⟨hd, hmem, by simpa using hc⟩)

/-- Witness for `c5_validate_necessary_conditions` at `dfNonContiguous`. -/
theorem c5_validate_necessary_conditions_witness :
    validate_dataframe_format dfNonContiguous = true ∧
    (dfNonContiguous.cols.take 5 = FIVE_COLUMN_HEADERS ∧
     dfNonContiguous.rows ≠ [] ∧
     (∀ hd ∈ FIVE_COLUMN_HEADERS,
        (dfNonContiguous.getCol hd).all Cell.isNull = false) ∧
     (dfNonContiguous.getCol "No").all Cell.isInt = true) :=
  ⟨by decide, c5_validate_necessary_conditions dfNonContiguous (by decide)⟩

/-- Claim C3: with auto-detection enabled, OCR initially disabled, and a
first pass yielding plain text below the minimal-length threshold, the
extractor re-runs the same file with OCR forced on and returns the
second pass's result. -/
theorem c3_ocr_autodetect_second_pass (cfg : OcrAutoConfig)
    (runPass : Bool → ExtractedDocument)
    (hauto : cfg.auto_ocr_detection = true) (hocr : cfg.do_ocr = false)
    (hshort : (runPass false).plain_text.length < cfg.min_text_threshold) :
    extract_with_ocr_autodetect cfg runPass = runPass true := by
  simp [extract_with_ocr_autodetect, hauto, hocr, hshort]

/-- Witness for `c3_ocr_autodetect_second_pass` on a short fast pass. -/
theorem c3_ocr_autodetect_second_pass_witness :
    (OcrAutoConfig.mk false true 100).auto_ocr_detection = true ∧
    (OcrAutoConfig.mk false true 100).do_ocr = false ∧
    (ocrPassRunner false).plain_text.length < 100 ∧
    extract_with_ocr_autodetect (OcrAutoConfig.mk false true 100) ocrPassRunner =
      ocrPassRunner true :=
  ⟨rfl, rfl, by decide,
   c3_ocr_autodetect_second_pass (OcrAutoConfig.mk false true 100) ocrPassRunner
     rfl rfl (by decide)⟩

/-- Claim C9: `prepare_for_export` is total — a frame failing validation
is replaced by the one-row fallback frame before serializing, and an
unsupported format string (raised as `ValueError` and caught) yields the
fallback frame serialized as CSV bytes. -/
theorem c9_export_never_fails (df : DataFrame) (fmt : String) :
    (validate_dataframe_format df = false →
      prepare_for_export df fmt =
        prepare_for_export (create_fallback_dataframe "Invalid format for export") fmt) ∧
    (pyLower fmt ≠ "xlsx" → pyLower fmt ≠ "csv" → pyLower fmt ≠ "json" →
      prepare_for_export df fmt =
        ExportBytes.csv (to_csv (create_fallback_dataframe
          ("Export error: Unsupported export format: " ++ fmt)))) := by
  constructor
  · intro h
    simp [prepare_for_export, h, validate_create_fallback]
  · intro h1 h2 h3
    simp [prepare_for_export, h1, h2, h3]

/-- Witness for `c9_export_never_fails` on an invalid frame and an
unsupported format. -/
theorem c9_export_never_fails_witness :
    validate_dataframe_format dfInvalid = false ∧
    pyLower "txt" ≠ "xlsx" ∧ pyLower "txt" ≠ "csv" ∧ pyLower "txt" ≠ "json" ∧
    prepare_for_export dfInvalid "txt" =
      prepare_for_export (create_fallback_dataframe "Invalid format for export") "txt" ∧
    prepare_for_export dfInvalid "txt" =
      ExportBytes.csv (to_csv (create_fallback_dataframe
        ("Export error: Unsupported export format: " ++ "txt"))) :=
  ⟨by decide, by decide, by decide, by decide,
   (c9_export_never_fails dfInvalid "txt").1 (by decide),
   (c9_export_never_fails dfInvalid "txt").2 (by decide) (by decide) (by decide)⟩

/-- Claim C6: the factory's provider-key lookup depends only on the
lowercased key (case-insensitive), and an event key missing from the
registry raises a configuration error naming the (normalized) key and
listing every registered provider. -/
theorem c6_factory_lookup (c1 c2 cfg : ExtractorConfig) (ecfg : EventConfig) :
    (c1.doc_extractor = c2.doc_extractor →
     pyLower c1.event_extractor = pyLower c2.event_extractor →
     build_extractors ecfg c1 = build_extractors ecfg c2) ∧
    (pyLower cfg.doc_extractor = "docling" →
     registryLookup EVENT_PROVIDER_REGISTRY (pyLower cfg.event_extractor) = none →
     build_extractors ecfg cfg = Except.error (BuildError.configurationError
       ("Unsupported event extractor type: " ++ pyLower cfg.event_extractor ++
        ". Available providers: anthropic, langextract, openai, opencode_zen, openrouter"))) := by
  constructor
  · intro h1 h2
    simp only [build_extractors, h1, h2]
  · intro hd hl
    have hav : availableProviders =
        "anthropic, langextract, openai, opencode_zen, openrouter" := by decide
    have hmerge : (". Available providers: " ++
        "anthropic, langextract, openai, opencode_zen, openrouter" : String) =
        ". Available providers: anthropic, langextract, openai, opencode_zen, openrouter" := by
      decide
    simp [build_extractors, hd, hl, hav, String.append_assoc, hmerge]

/-- Witness for `c6_factory_lookup`: `OpenAI` and `openai` build the same
pair, and the unknown key `gemini` produces the configuration error. -/
theorem c6_factory_lookup_witness :
    (ExtractorConfig.mk "docling" "OpenAI").doc_extractor =
      (ExtractorConfig.mk "docling" "openai").doc_extractor ∧
    pyLower (ExtractorConfig.mk "docling" "OpenAI").event_extractor =
      pyLower (ExtractorConfig.mk "docling" "openai").event_extractor ∧
    build_extractors EventConfig.openAIConfig (ExtractorConfig.mk "docling" "OpenAI") =
      build_extractors EventConfig.openAIConfig (ExtractorConfig.mk "docling" "openai") ∧
    pyLower (ExtractorConfig.mk "docling" "gemini").doc_extractor = "docling" ∧
    registryLookup EVENT_PROVIDER_REGISTRY
      (pyLower (ExtractorConfig.mk "docling" "gemini").event_extractor) = none ∧
    build_extractors EventConfig.langExtractConfig (ExtractorConfig.mk "docling" "gemini") =
      Except.error (BuildError.configurationError
        ("Unsupported event extractor type: " ++
         pyLower (ExtractorConfig.mk "docling" "gemini").event_extractor ++
         ". Available providers: anthropic, langextract, openai, opencode_zen, openrouter")) :=
  ⟨rfl, by decide, (c6_factory_lookup (ExtractorConfig.mk "docling" "OpenAI")
      (ExtractorConfig.mk "docling" "openai")
      (ExtractorConfig.mk "docling" "openai") EventConfig.openAIConfig).1 rfl (by decide),
   by decide, by decide,
   (c6_factory_lookup (ExtractorConfig.mk "docling" "gemini")
      (ExtractorConfig.mk "docling" "gemini")
      (ExtractorConfig.mk "docling" "gemini") EventConfig.langExtractConfig).2
     (by decide) (by decide)⟩

/-- Claim C10: any nonempty provider key whose trimmed, lowercased form
is outside the four dedicated providers is mapped by
`load_provider_config` to `LangExtractConfig` with the stored key
rewritten to `langextract`, so `create_default_extractors` with such an
override builds the default LangExtract adapter instead of reaching the
factory's unknown-key error. -/
theorem c10_unknown_provider_defaults (p : String) (base : ExtractorConfig)
    (hp : p ≠ "")
    (h1 : pyLower (pyStrip p) ≠ "openrouter") (h2 : pyLower (pyStrip p) ≠ "opencode_zen")
    (h3 : pyLower (pyStrip p) ≠ "openai") (h4 : pyLower (pyStrip p) ≠ "anthropic") :
    load_provider_config p base =
      (EventConfig.langExtractConfig,
       ExtractorConfig.mk base.doc_extractor "langextract") ∧
    (pyLower base.doc_extractor = "docling" →
      create_default_extractors base (some p) =
        Except.ok (BuiltExtractors.mk "DoclingDocumentExtractor"
          "LangExtractEventExtractor" EventConfig.langExtractConfig)) := by
  have hkey : ∀ q : String, pyOrStr p q = p := by
    intro q; simp [pyOrStr, hp]
  constructor
  · simp [load_provider_config, hkey, h1, h2, h3, h4]
  · intro hd
    have hreg : registryLookup EVENT_PROVIDER_REGISTRY (pyLower "langextract") =
        some "LangExtractEventExtractor" := by decide
    simp [create_default_extractors, hp, load_provider_config, hkey, h1, h2, h3, h4,
      build_extractors, hd, hreg]

/-- Witness for `c10_unknown_provider_defaults` at provider `gemini`. -/
theorem c10_unknown_provider_defaults_witness :
    ("gemini" : String) ≠ "" ∧
    pyLower (pyStrip "gemini") ≠ "openrouter" ∧ pyLower (pyStrip "gemini") ≠ "opencode_zen" ∧
    pyLower (pyStrip "gemini") ≠ "openai" ∧ pyLower (pyStrip "gemini") ≠ "anthropic" ∧
    load_provider_config "gemini" (ExtractorConfig.mk "docling" "openai") =
      (EventConfig.langExtractConfig, ExtractorConfig.mk "docling" "langextract") ∧
    create_default_extractors (ExtractorConfig.mk "docling" "openai") (some "gemini") =
      Except.ok (BuiltExtractors.mk "DoclingDocumentExtractor"
        "LangExtractEventExtractor" EventConfig.langExtractConfig) :=
  ⟨by decide, by decide, by decide, by decide, by decide,
   (c10_unknown_provider_defaults "gemini" (ExtractorConfig.mk "docling" "openai")
      (by decide) (by decide) (by decide) (by decide) (by decide)).1,
   (c10_unknown_provider_defaults "gemini" (ExtractorConfig.mk "docling" "openai")
      (by decide) (by decide) (by decide) (by decide) (by decide)).2 (by decide)⟩

/-- Claim C7: `DoclingDocumentExtractor.extract` is total, and whenever
the underlying parsing fails — the converter raises on a Docling-routed
file type, or `extract_text` reports `extraction_method = "failed"` —
the returned `ExtractedDocument` has empty markdown and plain text and
`metadata.extraction_method = "failed"`. -/
theorem c7_extract_failure_marker (cfg : DoclingConfigEcho) (fp ft : String)
    (convert email : Except String String) (rerun : Except String (String × String))
    (h : (ft ∈ doclingFileTypes ∧ ∃ m, convert = Except.error m) ∨
         (extract_text ft convert email).2 = "failed") :
    (docling_adapter_extract cfg fp ft (extract_text ft convert email) rerun).markdown = "" ∧
    (docling_adapter_extract cfg fp ft (extract_text ft convert email) rerun).plain_text = "" ∧
    (docling_adapter_extract cfg fp ft
        (extract_text ft convert email) rerun).metadata.extraction_method = "failed" := by
  have hfail : (extract_text ft convert email).2 = "failed" := by
    rcases h with ⟨hmem, m, hconv⟩ | hf
    · simp [extract_text, hmem, hconv]
    · exact hf
  simp [docling_adapter_extract, hfail]

/-- Witness for `c7_extract_failure_marker`: a PDF whose conversion
raises. -/
theorem c7_extract_failure_marker_witness :
    (("pdf" ∈ doclingFileTypes ∧
       ∃ m, (Except.error "parse failure" : Except String String) = Except.error m) ∨
     (extract_text "pdf" (Except.error "parse failure") (Except.ok "x")).2 = "failed") ∧
    (docling_adapter_extract (DoclingConfigEcho.mk true "FAST" "default") "a.pdf" "pdf"
      (extract_text "pdf" (Except.error "parse failure") (Except.ok "x"))
      (Except.ok ("", ""))).markdown = "" ∧
    (docling_adapter_extract (DoclingConfigEcho.mk true "FAST" "default") "a.pdf" "pdf"
      (extract_text "pdf" (Except.error "parse failure") (Except.ok "x"))
      (Except.ok ("", ""))).plain_text = "" ∧
    (docling_adapter_extract (DoclingConfigEcho.mk true "FAST" "default") "a.pdf" "pdf"
      (extract_text "pdf" (Except.error "parse failure") (Except.ok "x"))
      (Except.ok ("", ""))).metadata.extraction_method = "failed" :=
  have h : ("pdf" ∈ doclingFileTypes ∧
      ∃ m, (Except.error "parse failure" : Except String String) = Except.error m) ∨
      (extract_text "pdf" (Except.error "parse failure") (Except.ok "x")).2 = "failed" :=
    Or.inl ⟨by decide, "parse failure", rfl⟩
  ⟨h, c7_extract_failure_marker (DoclingConfigEcho.mk true "FAST" "default") "a.pdf" "pdf"
    (Except.error "parse failure") (Except.ok "x") (Except.ok ("", "")) h⟩

/-- Claim C4: when the transport fails with a transient error on every
attempt, `extract_events` invokes the transport exactly `1 + MAX_RETRIES`
times (4 attempts for 3 retries), returns exactly one fallback record,
and does not raise (it is a total function by construction). -/
theorem c4_retry_exhaustion (provider text msg : String)
    (dn fp : Option String)
    (transport : Nat → Except TransportError (List RawEvent))
    (htrans : ∀ n, transport n = Except.error (TransportError.transient msg))
    (htext : ¬ pyStrip text = "") :
    (extract_events provider true text dn fp transport).2 = 1 + MAX_RETRIES ∧
    (extract_events provider true text dn fp transport).1 =
      [fallbackRecord (resolveDocName dn fp) msg] ∧
    (fallbackRecord (resolveDocName dn fp) msg).fallback = true := by
  have hrun : runWithRetry transport 0 3 = (Except.error msg, 4) := by
    simp [runWithRetry, htrans]
  refine ⟨?_, ?_, rfl⟩ <;> simp [extract_events, htext, hrun, MAX_RETRIES]

/-- Witness for `c4_retry_exhaustion`: a transport that always reports a
rate limit. -/
theorem c4_retry_exhaustion_witness :
    (∀ n, (fun _ : Nat =>
        (Except.error (TransportError.transient "Rate limit") :
          Except TransportError (List RawEvent))) n =
      Except.error (TransportError.transient "Rate limit")) ∧
    ¬ (pyStrip "Test text" = "") ∧
    (extract_events "OpenAI" true "Test text" (some "test.pdf") none
      (fun _ => Except.error (TransportError.transient "Rate limit"))).2 = 1 + MAX_RETRIES ∧
    (extract_events "OpenAI" true "Test text" (some "test.pdf") none
      (fun _ => Except.error (TransportError.transient "Rate limit"))).1 =
      [fallbackRecord (resolveDocName (some "test.pdf") none) "Rate limit"] :=
  ⟨fun _ => rfl, by decide,
   (c4_retry_exhaustion "OpenAI" "Test text" "Rate limit" (some "test.pdf") none
      (fun _ => Except.error (TransportError.transient "Rate limit"))
      (fun _ => rfl) (by decide)).1,
   (c4_retry_exhaustion "OpenAI" "Test text" "Rate limit" (some "test.pdf") none
      (fun _ => Except.error (TransportError.transient "Rate limit"))
      (fun _ => rfl) (by decide)).2.1⟩

/-! ### Column bookkeeping lemmas for the normalization pipeline -/

theorem getElem?_colIndex {cols : List String} {name : String} (h : name ∈ cols) :
    cols[colIndex cols name]? = some name := by
  induction cols with
  | nil => cases h
  | cons c rest ih =>
    by_cases hc : c = name
    · simp [colIndex, hc]
    · have hmem : name ∈ rest := by
        rcases List.mem_cons.mp h with h1 | h1
        · exact absurd h1.symm hc
        · exact h1
      simp [colIndex, hc, ih hmem]

theorem colIndex_lt_length {cols : List String} {name : String} (h : name ∈ cols) :
    colIndex cols name < cols.length := by
  induction cols with
  | nil => cases h
  | cons c rest ih =>
    by_cases hc : c = name
    · simp [colIndex, hc]
    · have hmem : name ∈ rest := by
        rcases List.mem_cons.mp h with h1 | h1
        · exact absurd h1.symm hc
        · exact h1
      simp only [colIndex, hc, if_false, List.length_cons]
      exact Nat.succ_lt_succ (ih hmem)

theorem colIndex_append_left {cols : List String} {name : String} (l : List String)
    (h : name ∈ cols) : colIndex (cols ++ l) name = colIndex cols name := by
  induction cols with
  | nil => cases h
  | cons c rest ih =>
    by_cases hc : c = name
    · simp [colIndex, hc]
    · have hmem : name ∈ rest := by
        rcases List.mem_cons.mp h with h1 | h1
        · exact absurd h1.symm hc
        · exact h1
      simp [colIndex, hc, ih hmem]

theorem cellAt_map_cols {cols : List String} {name : String} (g : String → Cell)
    (h : name ∈ cols) : cellAt cols (cols.map g) name = g name := by
  simp [cellAt, List.getElem?_map, getElem?_colIndex h]

theorem cellAt_append_col {cols : List String} {name f : String} {r : List Cell} {v : Cell}
    (hmem : name ∈ cols) (hlen : r.length = cols.length) :
    cellAt (cols ++ [f]) (r ++ [v]) name = cellAt cols r name := by
  have hidx : colIndex cols name < r.length := by
    rw [hlen]; exact colIndex_lt_length hmem
  unfold cellAt
  rw [colIndex_append_left _ hmem, List.getElem?_append_left hidx]

theorem lookupKey_some_key {r : List (String × Cell)} {name : String} {v : Cell}
    (h : lookupKey r name = some v) : ∃ kv, kv ∈ r ∧ kv.1 = name := by
  induction r with
  | nil => simp [lookupKey] at h
  | cons kv0 rest ih =>
    obtain ⟨k, w⟩ := kv0
    by_cases hk : k = name
    · exact ⟨(k, w), List.mem_cons_self _ _, hk⟩
    · rw [lookupKey, if_neg hk] at h
      obtain ⟨kv2, hmem, hfst⟩ := ih h
      exact ⟨kv2, List.mem_cons_of_mem _ hmem, hfst⟩

theorem mem_foldl_keys_mono (r : List (String × Cell)) :
    ∀ (acc : List String) (x : String), x ∈ acc →
    x ∈ r.foldl (fun a kv => if kv.1 ∈ a then a else a ++ [kv.1]) acc := by
  induction r with
  | nil => intro acc x hx; simpa using hx
  | cons kv rest ih =>
    intro acc x hx
    simp only [List.foldl_cons]
    apply ih
    by_cases hk : kv.1 ∈ acc
    · rwa [if_pos hk]
    · rw [if_neg hk]; exact List.mem_append_left _ hx

theorem mem_foldl_keys_self (r : List (String × Cell)) :
    ∀ (acc : List String) (kv : String × Cell), kv ∈ r →
    kv.1 ∈ r.foldl (fun a kv2 => if kv2.1 ∈ a then a else a ++ [kv2.1]) acc := by
  induction r with
  | nil => intro acc kv h; cases h
  | cons kv0 rest ih =>
    intro acc kv h
    simp only [List.foldl_cons]
    rcases List.mem_cons.mp h with rfl | hmem
    · apply mem_foldl_keys_mono
      by_cases hk : kv.1 ∈ acc
      · rwa [if_pos hk]
      · rw [if_neg hk]
        exact List.mem_append_right _ (by simp)
    · exact ih _ _ hmem

theorem mem_foldl_records_mono (records : List PyRecord) :
    ∀ (acc : List String) (x : String), x ∈ acc →
    x ∈ records.foldl
      (fun acc r => r.foldl (fun a kv => if kv.1 ∈ a then a else a ++ [kv.1]) acc) acc := by
  induction records with
  | nil => intro acc x hx; simpa using hx
  | cons r rest ih =>
    intro acc x hx
    simp only [List.foldl_cons]
    exact ih _ _ (mem_foldl_keys_mono r acc x hx)

theorem mem_pdColumns_aux {r : PyRecord} {kv : String × Cell} (hkv : kv ∈ r) :
    ∀ (records : List PyRecord), r ∈ records → ∀ acc,
    kv.1 ∈ records.foldl
      (fun acc rr => rr.foldl (fun a kv2 => if kv2.1 ∈ a then a else a ++ [kv2.1]) acc) acc := by
  intro records
  induction records with
  | nil => intro h; cases h
  | cons r0 rest ih =>
    intro hr acc
    simp only [List.foldl_cons]
    rcases List.mem_cons.mp hr with h | h
    · subst h
      exact mem_foldl_records_mono rest _ _ (mem_foldl_keys_self r acc kv hkv)
    · exact ih h _

theorem mem_pdColumns {records : List PyRecord} {r : PyRecord} {kv : String × Cell}
    (hr : r ∈ records) (hkv : kv ∈ r) : kv.1 ∈ pdColumns records :=
  mem_pdColumns_aux hkv records hr []

theorem zipWith_append_rect {n : Nat} :
    ∀ (rows : List (List Cell)) (vals : List Cell),
    (∀ r ∈ rows, r.length = n) →
    ∀ r2 ∈ List.zipWith (fun r v => r ++ [v]) rows vals, r2.length = n + 1 := by
  intro rows
  induction rows with
  | nil => intro vals _ r2 h2; simp at h2
  | cons r rest ih =>
    intro vals hall r2 h2
    cases vals with
    | nil => simp at h2
    | cons v vs =>
      rw [List.zipWith_cons_cons] at h2
      rcases List.mem_cons.mp h2 with rfl | h2
      · simp [hall r (List.mem_cons_self _ _)]
      · exact ih vs (fun r3 h3 => hall r3 (List.mem_cons_of_mem _ h3)) r2 h2

theorem zipWith_append_ne_nil :
    ∀ (rows : List (List Cell)) (vals : List Cell),
    ∀ r2 ∈ List.zipWith (fun r v => r ++ [v]) rows vals, r2 ≠ [] := by
  intro rows
  induction rows with
  | nil => intro vals r2 h2; simp at h2
  | cons r rest ih =>
    intro vals r2 h2
    cases vals with
    | nil => simp at h2
    | cons v vs =>
      rw [List.zipWith_cons_cons] at h2
      rcases List.mem_cons.mp h2 with rfl | h2
      · simp
      · exact ih vs r2 h2

theorem map_rowKey_zipWith :
    ∀ (rows : List (List Cell)) (vals : List Cell),
    rows.length ≤ vals.length → (∀ r ∈ rows, r ≠ []) →
    (List.zipWith (fun r v => r ++ [v]) rows vals).map rowKey = rows.map rowKey := by
  intro rows
  induction rows with
  | nil => simp
  | cons r rest ih =>
    intro vals hlen hne
    cases vals with
    | nil => simp at hlen
    | cons v vs =>
      rw [List.zipWith_cons_cons, List.map_cons, List.map_cons,
        ih vs (by simpa using hlen) (fun x hx => hne x (List.mem_cons_of_mem _ hx))]
      congr 1
      cases r with
      | nil => exact absurd rfl (hne [] (List.mem_cons_self _ _))
      | cons a as => simp [rowKey]

theorem map_cellAt_zipWith {cols : List String} {f name : String} (hmem : name ∈ cols) :
    ∀ (rows : List (List Cell)) (vals : List Cell), rows.length ≤ vals.length →
    (∀ r ∈ rows, r.length = cols.length) →
    (List.zipWith (fun r v => r ++ [v]) rows vals).map
        (fun r => cellAt (cols ++ [f]) r name) =
      rows.map (fun r => cellAt cols r name) := by
  intro rows
  induction rows with
  | nil => simp
  | cons r rest ih =>
    intro vals hlen hrect
    cases vals with
    | nil => simp at hlen
    | cons v vs =>
      rw [List.zipWith_cons_cons, List.map_cons, List.map_cons,
        ih vs (by simpa using hlen) (fun x hx => hrect x (List.mem_cons_of_mem _ hx)),
        cellAt_append_col hmem (hrect r (List.mem_cons_self _ _))]

theorem defaultColumn_length (field : String) (n : Nat) :
    (defaultColumn field n).length = n := by
  unfold defaultColumn
  split_ifs
  · rw [List.length_map, List.length_range]
  · rw [List.length_replicate]
  · rw [List.length_replicate]
  · rw [List.length_replicate]
  · rw [List.length_replicate]

theorem ensure_fold_getCol {name : String} :
    ∀ (fields : List String) (df : DataFrame),
    name ∈ df.cols → (∀ r ∈ df.rows, r.length = df.cols.length) →
    name ∈ (fields.foldl (fun d f => if f ∈ d.cols then d
      else addColumn d f (defaultColumn f d.rows.length)) df).cols ∧
    (fields.foldl (fun d f => if f ∈ d.cols then d
      else addColumn d f (defaultColumn f d.rows.length)) df).getCol name = df.getCol name ∧
    (∀ r ∈ (fields.foldl (fun d f => if f ∈ d.cols then d
      else addColumn d f (defaultColumn f d.rows.length)) df).rows,
      r.length = (fields.foldl (fun d f => if f ∈ d.cols then d
        else addColumn d f (defaultColumn f d.rows.length)) df).cols.length) ∧
    (fields.foldl (fun d f => if f ∈ d.cols then d
      else addColumn d f (defaultColumn f d.rows.length)) df).rows.length = df.rows.length := by
  intro fields
  induction fields with
  | nil => intro df h1 h2; exact ⟨h1, rfl, h2, rfl⟩
  | cons f rest ih =>
    intro df h1 h2
    simp only [List.foldl_cons]
    by_cases hf : f ∈ df.cols
    · rw [if_pos hf]; exact ih df h1 h2
    · rw [if_neg hf]
      have hvlen : (defaultColumn f df.rows.length).length = df.rows.length :=
        defaultColumn_length f df.rows.length
      have hrowslen : (addColumn df f (defaultColumn f df.rows.length)).rows.length =
          df.rows.length := by
        simp [addColumn, List.length_zipWith, hvlen]
      have h1' : name ∈ (addColumn df f (defaultColumn f df.rows.length)).cols :=
        List.mem_append_left _ h1
      have h2' : ∀ r ∈ (addColumn df f (defaultColumn f df.rows.length)).rows,
          r.length = (addColumn df f (defaultColumn f df.rows.length)).cols.length := by
        intro r hr
        have := zipWith_append_rect (n := df.cols.length) df.rows
          (defaultColumn f df.rows.length) h2 r hr
        simp [addColumn, this]
      have hget : (addColumn df f (defaultColumn f df.rows.length)).getCol name =
          df.getCol name := by
        simp only [DataFrame.getCol, addColumn]
        exact map_cellAt_zipWith h1 df.rows _ (by rw [hvlen]) h2
      obtain ⟨a, b, c, d⟩ := ih (addColumn df f (defaultColumn f df.rows.length)) h1' h2'
      exact ⟨a, by rw [b, hget], c, by rw [d, hrowslen]⟩

theorem pdDataFrame_rect (records : List PyRecord) :
    ∀ r ∈ (pdDataFrame records).rows, r.length = (pdDataFrame records).cols.length := by
  intro r hr
  simp only [pdDataFrame] at hr ⊢
  obtain ⟨rec, _, rfl⟩ := List.mem_map.mp hr
  simp

theorem pdDataFrame_getCol {records : List PyRecord} {name : String}
    (h : name ∈ pdColumns records) :
    (pdDataFrame records).getCol name =
      records.map (fun r => (lookupKey r name).getD Cell.null) := by
  simp only [DataFrame.getCol, pdDataFrame, List.map_map]
  refine List.map_congr_left (fun r _ => ?_)
  exact cellAt_map_cols _ h

theorem selectRename_keys (df : DataFrame) :
    (selectRename df).rows.map rowKey = df.getCol "number" := by
  simp only [selectRename, DataFrame.getCol, List.map_map]
  refine List.map_congr_left (fun r _ => ?_)
  simp [rowKey, INTERNAL_FIELDS]

theorem selectRename_rows_ne_nil (df : DataFrame) :
    ∀ r ∈ (selectRename df).rows, r ≠ [] := by
  intro r hr
  simp only [selectRename] at hr
  obtain ⟨rec, _, rfl⟩ := List.mem_map.mp hr
  simp [INTERNAL_FIELDS]

theorem selectRename_rows_length (df : DataFrame) :
    (selectRename df).rows.length = df.rows.length := by
  simp [selectRename]

theorem appendTiming_fold (df0 : DataFrame) :
    ∀ (tc : List String) (core : DataFrame),
    (∀ r ∈ core.rows, r ≠ []) → core.rows.length = df0.rows.length →
    (tc.foldl (fun d c => if c ∈ df0.cols then
        addColumn d (displayTimingName c) (df0.getCol c) else d) core).rows.map rowKey =
      core.rows.map rowKey ∧
    (∃ extra, (tc.foldl (fun d c => if c ∈ df0.cols then
        addColumn d (displayTimingName c) (df0.getCol c) else d) core).cols =
      core.cols ++ extra) := by
  intro tc
  induction tc with
  | nil => intro core _ _; exact ⟨rfl, [], by simp⟩
  | cons c rest ih =>
    intro core h1 h2
    simp only [List.foldl_cons]
    by_cases hc : c ∈ df0.cols
    · rw [if_pos hc]
      have hvals : (df0.getCol c).length = df0.rows.length := by
        simp [DataFrame.getCol]
      have hle : core.rows.length ≤ (df0.getCol c).length := by rw [hvals, h2]
      have h1' : ∀ r ∈ (addColumn core (displayTimingName c) (df0.getCol c)).rows,
          r ≠ [] := by
        intro r hr
        exact zipWith_append_ne_nil core.rows _ r hr
      have h2' : (addColumn core (displayTimingName c) (df0.getCol c)).rows.length =
          df0.rows.length := by
        simp [addColumn, List.length_zipWith, hvals, h2]
      obtain ⟨hk, extra, hcols⟩ := ih _ h1' h2'
      refine ⟨?_, [displayTimingName c] ++ extra, ?_⟩
      · rw [hk]
        simp only [addColumn]
        exact map_rowKey_zipWith core.rows _ hle h1
      · rw [hcols]
        simp [addColumn, List.append_assoc]
    · rw [if_neg hc]; exact ih core h1 h2

theorem map_rowKey_insertRow (r : List Cell) :
    ∀ (l : List (List Cell)),
    (insertRow r l).map rowKey = insertCell (rowKey r) (l.map rowKey) := by
  intro l
  induction l with
  | nil => simp [insertRow, insertCell]
  | cons s rest ih =>
    simp only [insertRow]
    split
    · rename_i h
      simp [insertCell, h]
    · rename_i h
      simp [insertCell, h, ih]

theorem map_rowKey_sortRows : ∀ (l : List (List Cell)),
    (sortRows l).map rowKey = sortCells (l.map rowKey) := by
  intro l
  induction l with
  | nil => simp [sortRows, sortCells]
  | cons r rest ih =>
    show (insertRow r (sortRows rest)).map rowKey =
      insertCell (rowKey r) (sortCells (rest.map rowKey))
    rw [map_rowKey_insertRow, ih]

theorem mem_insertCell {x c : Cell} :
    ∀ {l : List Cell}, x ∈ insertCell c l → x = c ∨ x ∈ l := by
  intro l
  induction l with
  | nil => intro h; simpa [insertCell] using h
  | cons d rest ih =>
    intro h
    simp only [insertCell] at h
    split at h
    · rcases List.mem_cons.mp h with rfl | h2
      · exact Or.inl rfl
      · exact Or.inr h2
    · rcases List.mem_cons.mp h with rfl | h2
      · exact Or.inr (List.mem_cons_self _ _)
      · rcases ih h2 with h3 | h3
        · exact Or.inl h3
        · exact Or.inr (List.mem_cons_of_mem _ h3)

theorem mem_sortCells {x : Cell} : ∀ {l : List Cell}, x ∈ sortCells l → x ∈ l := by
  intro l
  induction l with
  | nil => intro h; simp [sortCells] at h
  | cons c rest ih =>
    intro h
    have h2 : x ∈ insertCell c (sortCells rest) := h
    rcases mem_insertCell h2 with rfl | h3
    · exact List.mem_cons_self _ _
    · exact List.mem_cons_of_mem _ (ih h3)

/-- Claim C2, counterexample: for source numbers `[5, 2]`, normalization
sorts but does not renumber — the `No` column comes out `[2, 5]`, not the
contiguous `[1, 2]` the claim requires. -/
theorem c2_no_renumbering_counterexample :
    (normalize_records_to_dataframe [recNumber5, recNumber2]).getCol "No" =
      [Cell.int 2, Cell.int 5] ∧
    [Cell.int 2, Cell.int 5] ≠ [Cell.int 1, Cell.int 2] := by
  decide

/-- Claim C2, amended: when every input record carries an integer source
number and the normalized frame passes validation, the `No` column of
the returned table equals the input source numbers sorted in ascending
order — duplicates and gaps are preserved, so it equals `[1..n]` only
when the source numbers already form that sequence.  (Only a completely
missing `number` field is replaced by the contiguous default `1..n`.) -/
theorem c2_no_column_sorted_source_numbers (records : List PyRecord)
    (hne : records ≠ [])
    (hnum : ∀ r ∈ records, ∃ n : Int, lookupKey r "number" = some (Cell.int n))
    (hval : validate_dataframe_format (normalizeCore records) = true) :
    normalize_records_to_dataframe records = normalizeCore records ∧
    (normalizeCore records).getCol "No" =
      sortCells (records.map (fun r => (lookupKey r "number").getD Cell.null)) := by
  have hmem : "number" ∈ pdColumns records := by
    obtain ⟨r0, rest0, heq⟩ := List.exists_cons_of_ne_nil hne
    obtain ⟨n, hn⟩ := hnum r0 (by rw [heq]; exact List.mem_cons_self _ _)
    obtain ⟨kv, hkv, hfst⟩ := lookupKey_some_key hn
    have hr0mem : r0 ∈ records := by rw [heq]; exact List.mem_cons_self _ _
    have hm := mem_pdColumns hr0mem hkv
    rwa [hfst] at hm
  have hbase_get := pdDataFrame_getCol hmem
  have hmem2 : "number" ∈ (pdDataFrame records).cols := hmem
  obtain ⟨hecol, heget, herect, helen⟩ :=
    ensure_fold_getCol INTERNAL_FIELDS (pdDataFrame records)
      hmem2 (pdDataFrame_rect records)
  obtain ⟨hkeys, extra, hcols⟩ :=
    appendTiming_fold (ensureFields (pdDataFrame records)) timingColumns
      (selectRename (ensureFields (pdDataFrame records)))
      (selectRename_rows_ne_nil _)
      (selectRename_rows_length _)
  have hkeys2 : (appendTiming (selectRename (ensureFields (pdDataFrame records)))
      (ensureFields (pdDataFrame records))).rows.map rowKey =
      (selectRename (ensureFields (pdDataFrame records))).rows.map rowKey := hkeys
  have hcols2 : (appendTiming (selectRename (ensureFields (pdDataFrame records)))
      (ensureFields (pdDataFrame records))).cols =
      (selectRename (ensureFields (pdDataFrame records))).cols ++ extra := hcols
  have heget2 : (ensureFields (pdDataFrame records)).getCol "number" =
      (pdDataFrame records).getCol "number" := heget
  have hNo : (normalizeCore records).getCol "No" =
      sortCells (records.map (fun r => (lookupKey r "number").getD Cell.null)) := by
    have hidx : colIndex (appendTiming
        (selectRename (ensureFields (pdDataFrame records)))
        (ensureFields (pdDataFrame records))).cols "No" = 0 := by
      rw [hcols2]
      simp [selectRename, FIVE_COLUMN_HEADERS, colIndex]
    calc (normalizeCore records).getCol "No"
        = (sortRows (appendTiming
            (selectRename (ensureFields (pdDataFrame records)))
            (ensureFields (pdDataFrame records))).rows).map rowKey := by
          simp only [normalizeCore, DataFrame.getCol, cellAt, hidx]
          rfl
      _ = sortCells ((appendTiming
            (selectRename (ensureFields (pdDataFrame records)))
            (ensureFields (pdDataFrame records))).rows.map rowKey) :=
          map_rowKey_sortRows _
      _ = sortCells ((selectRename (ensureFields (pdDataFrame records))).rows.map rowKey) := by
          rw [hkeys2]
      _ = sortCells ((ensureFields (pdDataFrame records)).getCol "number") := by
          rw [selectRename_keys]
      _ = sortCells ((pdDataFrame records).getCol "number") := by
          rw [heget2]
      _ = _ := by rw [hbase_get]
  refine ⟨?_, hNo⟩
  have hempty : records.isEmpty = false := by
    simp [List.isEmpty_iff, hne]
  have hstr : ((normalizeCore records).getCol "No").any Cell.isStr = false := by
    rw [hNo]
    simp only [List.any_eq_false]
    intro x hx
    obtain ⟨r, hr, rfl⟩ := List.mem_map.mp (mem_sortCells hx)
    obtain ⟨n, hn⟩ := hnum r hr
    simp [hn, Cell.isStr]
  have hmix : mixedNoTypes (normalizeCore records) = false := by
    unfold mixedNoTypes
    rw [hstr, Bool.and_false]
  simp [normalize_records_to_dataframe, hempty, hmix, hval]

/-- Witness for `c2_no_column_sorted_source_numbers` at source numbers
`[5, 2]`: the `No` column is the sorted `[2, 5]`. -/
theorem c2_no_column_sorted_source_numbers_witness :
    ([recNumber5, recNumber2] : List PyRecord) ≠ [] ∧
    validate_dataframe_format (normalizeCore [recNumber5, recNumber2]) = true ∧
    (normalize_records_to_dataframe [recNumber5, recNumber2] =
      normalizeCore [recNumber5, recNumber2] ∧
     (normalizeCore [recNumber5, recNumber2]).getCol "No" =
       sortCells ([recNumber5, recNumber2].map
         (fun r => (lookupKey r "number").getD Cell.null))) :=
  have hnum : ∀ r ∈ [recNumber5, recNumber2],
      ∃ n : Int, lookupKey r "number" = some (Cell.int n) := by
    intro r hr
    rcases List.mem_cons.mp hr with rfl | hr2
    · exact ⟨5, rfl⟩
    · rcases List.mem_cons.mp hr2 with rfl | hr3
      · exact ⟨2, rfl⟩
      · cases hr3
  ⟨by decide, by decide,
   c2_no_column_sorted_source_numbers [recNumber5, recNumber2]
     (by decide) hnum (by decide)⟩

/-! ### CSV round-trip lemmas -/

theorem parseQuoted_dupQuotes (f : List Char) :
    ∀ (rest : List Char), rest.head? ≠ some quoteChar →
    parseQuoted (dupQuotes f ++ quoteChar :: rest) = some (f, rest) := by
  induction f with
  | nil =>
    intro rest hrest
    cases rest with
    | nil => simp [dupQuotes, parseQuoted]
    | cons r1 rest2 =>
      have hr1 : r1 ≠ quoteChar := by
        intro h
        exact hrest (by simp [h])
      simp [dupQuotes, parseQuoted, hr1]
  | cons a f2 ih =>
    intro rest hrest
    by_cases ha : a = quoteChar
    · subst ha
      have hshape : dupQuotes (quoteChar :: f2) ++ quoteChar :: rest =
          quoteChar :: quoteChar :: (dupQuotes f2 ++ quoteChar :: rest) := by
        simp [dupQuotes]
      rw [hshape]
      simp only [parseQuoted]
      simp [ih rest hrest]
    · rcases hL : dupQuotes f2 ++ quoteChar :: rest with _ | ⟨b, L2⟩
      · exact absurd hL (by simp)
      · have hshape : dupQuotes (a :: f2) ++ quoteChar :: rest = a :: b :: L2 := by
          simp [dupQuotes, ha, hL]
        rw [hshape]
        simp only [parseQuoted]
        rw [if_neg ha, ← hL, ih rest hrest]
        rfl

theorem takeWhile_append_clean (f : List Char) :
    ∀ (rest : List Char), (∀ c ∈ f, notFieldEnd c = true) →
    (rest.head? = some ',' ∨ rest.head? = some lfChar ∨ rest = []) →
    (f ++ rest).takeWhile notFieldEnd = f ∧ (f ++ rest).dropWhile notFieldEnd = rest := by
  induction f with
  | nil =>
    intro rest _ hrest
    cases rest with
    | nil => simp
    | cons c cs =>
      have hc : notFieldEnd c = false := by
        rcases hrest with h | h | h
        · simp only [List.head?_cons, Option.some.injEq] at h
          subst h; decide
        · simp only [List.head?_cons, Option.some.injEq] at h
          subst h; decide
        · cases h
      simp [List.takeWhile_cons, List.dropWhile_cons, hc]
  | cons a f2 ih =>
    intro rest hf hrest
    have ha : notFieldEnd a = true := hf a (List.mem_cons_self _ _)
    have ih2 := ih rest (fun c hc => hf c (List.mem_cons_of_mem _ hc)) hrest
    simp [List.takeWhile_cons, List.dropWhile_cons, ha, ih2.1, ih2.2]

theorem parseField_render (f : List Char) (rest : List Char)
    (hrest : rest.head? = some ',' ∨ rest.head? = some lfChar ∨ rest = []) :
    parseField (escapeField f ++ rest) = some (f, rest) := by
  by_cases hq : f.any isSpecialChar
  · have hrq : rest.head? ≠ some quoteChar := by
      rcases hrest with h | h | h
      · rw [h]
        intro hcon
        have h2 : (',' : Char) = quoteChar := by simpa using hcon
        exact absurd h2 (by decide)
      · rw [h]
        intro hcon
        have h2 : lfChar = quoteChar := by simpa using hcon
        exact absurd h2 (by decide)
      · subst h; simp
    have hshape : escapeField f ++ rest =
        quoteChar :: (dupQuotes f ++ quoteChar :: rest) := by
      simp [escapeField, hq, List.append_assoc]
    rw [hshape]
    simp only [parseField, if_true]
    exact parseQuoted_dupQuotes f rest hrq
  · rw [Bool.not_eq_true] at hq
    have hclean : ∀ c ∈ f, isSpecialChar c = false := by
      intro c hc
      rcases List.any_eq_false.mp hq c hc with h
      simpa using h
    have hf2 : ∀ c ∈ f, notFieldEnd c = true := by
      intro c hc
      have h := hclean c hc
      simp only [isSpecialChar, Bool.or_eq_false_iff, decide_eq_false_iff_not] at h
      simp only [notFieldEnd]
      simp [h.1.1.1, h.1.2]
    have hesc : escapeField f = f := by simp [escapeField, hq]
    rw [hesc]
    have hhead : ∀ c, (f ++ rest).head? = some c → c ≠ quoteChar := by
      intro c hc
      cases f with
      | nil =>
        simp only [List.nil_append] at hc
        rcases hrest with h | h | h
        · rw [h] at hc
          have h2 : (',' : Char) = c := by simpa using hc
          subst h2; decide
        · rw [h] at hc
          have h2 : lfChar = c := by simpa using hc
          subst h2; decide
        · subst h; simp at hc
      | cons a f3 =>
        simp only [List.cons_append, List.head?_cons, Option.some.injEq] at hc
        subst hc
        have h := hclean a (List.mem_cons_self _ _)
        simp only [isSpecialChar, Bool.or_eq_false_iff, decide_eq_false_iff_not] at h
        exact h.1.1.2
    cases hcs : f ++ rest with
    | nil =>
      have hf0 : f = [] := by
        cases f with
        | nil => rfl
        | cons a f3 => simp at hcs
      have hr0 : rest = [] := by
        rw [hf0] at hcs
        simpa using hcs
      rw [hf0, hr0]
      simp [parseField]
    | cons c cs =>
      have hcq : c ≠ quoteChar := hhead c (by rw [hcs]; simp)
      simp only [parseField]
      rw [if_neg hcq, ← hcs]
      have ht := takeWhile_append_clean f rest hf2 hrest
      rw [ht.1, ht.2]

theorem parseRowAux_render :
    ∀ (fs : List (List Char)) (fuel : Nat) (rest : List Char),
    fs ≠ [] → fs.length ≤ fuel →
    parseRowAux fuel (renderRow fs ++ lfChar :: rest) = some (fs, rest) := by
  intro fs
  induction fs with
  | nil => intro fuel rest h _; cases h rfl
  | cons f fs2 ih =>
    intro fuel rest _ hlen
    cases fuel with
    | zero => simp at hlen
    | succ fuel2 =>
      cases fs2 with
      | nil =>
        have hr : renderRow [f] = escapeField f := rfl
        rw [hr]
        simp only [parseRowAux]
        rw [parseField_render f (lfChar :: rest) (Or.inr (Or.inl (by simp)))]
        have hne : (lfChar = ',') = False := by decide
        simp [hne]
      | cons f2 fs3 =>
        have hr : renderRow (f :: f2 :: fs3) ++ lfChar :: rest =
            escapeField f ++ ',' :: (renderRow (f2 :: fs3) ++ lfChar :: rest) := by
          simp [renderRow, List.append_assoc]
        rw [hr]
        simp only [parseRowAux]
        rw [parseField_render f (',' :: (renderRow (f2 :: fs3) ++ lfChar :: rest))
          (Or.inl (by simp))]
        have ihh := ih fuel2 rest (by simp) (by simpa using hlen)
        simp [ihh]

theorem renderRow_length_ge :
    ∀ (fs : List (List Char)), fs.length ≤ (renderRow fs).length + 1 := by
  intro fs
  induction fs with
  | nil => simp [renderRow]
  | cons f fs2 ih =>
    cases fs2 with
    | nil => simp [renderRow]
    | cons f2 fs3 =>
      have hr : renderRow (f :: f2 :: fs3) = escapeField f ++ ',' :: renderRow (f2 :: fs3) :=
        rfl
      rw [hr]
      simp only [List.length_cons, List.length_append] at ih ⊢
      omega

theorem parseCsvAux_render :
    ∀ (t : List (List (List Char))) (fuel : Nat),
    (∀ r ∈ t, r ≠ []) → (renderCsv t).length ≤ fuel →
    parseCsvAux fuel (renderCsv t) = some t := by
  intro t
  induction t with
  | nil =>
    intro fuel _ _
    cases fuel <;> simp [renderCsv, parseCsvAux]
  | cons r t2 ih =>
    intro fuel hne hlen
    have hrne : r ≠ [] := hne r (List.mem_cons_self _ _)
    have hcsv : renderCsv (r :: t2) = renderRow r ++ lfChar :: renderCsv t2 := rfl
    cases fuel with
    | zero =>
      exfalso
      have hpos : 0 < (renderCsv (r :: t2)).length := by
        rw [hcsv]
        simp [List.length_append]
      omega
    | succ fuel2 =>
      have hlen2 : (renderRow r).length + (renderCsv t2).length + 1 ≤ fuel2 + 1 := by
        have hlen3 : (renderRow r ++ lfChar :: renderCsv t2).length ≤ fuel2 + 1 := by
          rw [← hcsv]; exact hlen
        simp [List.length_append] at hlen3
        omega
      rcases hcs : renderRow r ++ lfChar :: renderCsv t2 with _ | ⟨c, cs⟩
      · exact absurd hcs (by simp)
      · rw [hcsv, hcs]
        simp only [parseCsvAux]
        have hrow : parseRowAux (fuel2 + 1) (c :: cs) = some (r, renderCsv t2) := by
          rw [← hcs]
          apply parseRowAux_render r (fuel2 + 1) (renderCsv t2) hrne
          have h1 := renderRow_length_ge r
          omega
        rw [hrow]
        have ih2 := ih fuel2 (fun x hx => hne x (List.mem_cons_of_mem _ hx)) (by omega)
        simp [ih2]

/-- The frame shape facts validation guarantees, used by the round-trip
argument: at least five columns and at least one row. -/
theorem validate_shape {df : DataFrame} (h : validate_dataframe_format df = true) :
    5 ≤ df.cols.length ∧ df.rows ≠ [] := by
  simp only [validate_dataframe_format] at h
  split at h
  · exact absurd h (by simp)
  split at h
  · exact absurd h (by simp)
  split at h
  · exact absurd h (by simp)
  split at h
  · exact absurd h (by simp)
  rename_i h1 h2 h3 h4
  constructor
  · have h5 := Nat.le_of_not_lt (by simpa [FIVE_COLUMN_HEADERS] using h2)
    simpa using h5
  · simpa [List.isEmpty_iff] using h1

/-- Claim C8: serializing a validated frame with
`prepare_for_export(df, "csv")` and re-parsing the CSV text reproduces
every field exactly — in particular the five canonical columns of every
row come back identical (as their canonical renderings). -/
theorem c8_csv_roundtrip (df : DataFrame)
    (hval : validate_dataframe_format df = true)
    (hrect : ∀ r ∈ df.rows, r.length = df.cols.length) :
    prepare_for_export df "csv" = ExportBytes.csv (to_csv df) ∧
    parseCsvString (to_csv df) = some (csvTable df) ∧
    (parseCsvString (to_csv df)).map (fun rows => rows.map (fun r => r.take 5)) =
      some ((df.cols.map String.data).take 5 ::
        df.rows.map (fun r => (r.map cellRender).take 5)) := by
  have hshape := validate_shape hval
  have hrows_ne : ∀ r ∈ csvTable df, r ≠ [] := by
    intro r hr
    simp only [csvTable] at hr
    rcases List.mem_cons.mp hr with rfl | hr2
    · intro hcon
      have hc : df.cols = [] := by simpa using hcon
      rw [hc] at hshape
      simp at hshape
    · obtain ⟨row, hrow, rfl⟩ := List.mem_map.mp hr2
      intro hcon
      have hrow0 : row = [] := by simpa using hcon
      have hl := hrect row hrow
      rw [hrow0] at hl
      simp at hl
      omega
  have hrt : parseCsvString (to_csv df) = some (csvTable df) := by
    show parseCsvAux (to_csv df).data.length (to_csv df).data = some (csvTable df)
    exact parseCsvAux_render (csvTable df) _ hrows_ne (le_refl _)
  have hfmt1 : (pyLower "csv" = "xlsx") = False := by decide
  have hfmt2 : (pyLower "csv" = "csv") = True := by decide
  refine ⟨by simp [prepare_for_export, hval, hfmt1, hfmt2], hrt, ?_⟩
  rw [hrt]
  simp [csvTable, List.map_map]

/-- Witness for `c8_csv_roundtrip` on a one-row frame whose particulars
cell contains a comma and a line break. -/
theorem c8_csv_roundtrip_witness :
    validate_dataframe_format dfCsvExample = true ∧
    (∀ r ∈ dfCsvExample.rows, r.length = dfCsvExample.cols.length) ∧
    (prepare_for_export dfCsvExample "csv" = ExportBytes.csv (to_csv dfCsvExample) ∧
     parseCsvString (to_csv dfCsvExample) = some (csvTable dfCsvExample) ∧
     (parseCsvString (to_csv dfCsvExample)).map
         (fun rows => rows.map (fun r => r.take 5)) =
       some ((dfCsvExample.cols.map String.data).take 5 ::
         dfCsvExample.rows.map (fun r => (r.map cellRender).take 5))) :=
  ⟨by decide, by decide, c8_csv_roundtrip dfCsvExample (by decide) (by decide)⟩

end LegalEvents
